import Mathlib

/-
Shallow embedding of the Cattle-Scans frontend core: the submission
pipeline (src/pages/Scan.tsx together with utils geolocation), the
review/flag coordinator (reviewMutation / flagMutation), and the
moderation reconciliation engine (src/pages/Admin.tsx:
fetchScansPaginated, ConfirmScans, confirmMutation,
UploadConfirmedImage).  JS numbers are modelled as Rat, timestamps as
Int, nullable columns as Option, tables as lists of rows, and each
external call outcome as an explicit Except/Option parameter.
-/

namespace CattleScans

/-- One entry of the ranked label/confidence list produced by the
inference service (Scan.tsx: Object.entries of the JSON response). -/
structure Prediction where
  label : String
  confidence : Rat
deriving DecidableEq, Repr

/-- Coordinates produced by the IP geolocation fallback
(utils/geolocation.ts: latitude, longitude, accuracy). -/
structure Coordinates where
  latitude : Rat
  longitude : Rat
  accuracy : Rat
deriving DecidableEq, Repr

/-- A row of the cattle_scans table (type CattleScan in Admin.tsx,
fields inserted by saveDataMutation in Scan.tsx). -/
structure CattleScan where
  id : String
  image_url : String
  location : Option Coordinates
  ai_prediction : List Prediction
  scanned_by_user_id : Option String
  is_helpful : Option Bool
  flagged_for_inspection : Option Bool
  inspection_reason : Option String
  created_at : Int
deriving DecidableEq, Repr

/-- A row of the confirmed_cattle_breeds table (type
ConfirmedCattleBreed in Admin.tsx). -/
structure ConfirmedCattleBreed where
  id : String
  scan_id : Option String
  image_url : String
  breed : String
  confirmed_by_user_id : Option String
  created_at : Int
deriving DecidableEq, Repr

/-- The scan record store: the two tables the core reads and writes. -/
structure Database where
  cattle_scans : List CattleScan
  confirmed_cattle_breeds : List ConfirmedCattleBreed
deriving DecidableEq, Repr

/-- World state visible to the pipeline: the artifact store (list of
uploaded object paths in the cnb bucket) and the database. -/
structure WorldState where
  storage : List String
  db : Database
deriving DecidableEq, Repr

/-- Artifact-store public URL for an uploaded path
(supabase.storage.from("cnb").getPublicUrl: pure, non-failing). -/
def publicUrl (path : String) : String :=
  "https://storage.example/cnb/" ++ path

/-- Object path used by the uploads in Scan.tsx and Admin.tsx:
images/ followed by Date.now(), a dash, and the file name. -/
def uploadFileName (now : Int) (fileName : String) : String :=
  "images/" ++ toString now ++ "-" ++ fileName

/-- Result record returned by getBestLocation in utils/geolocation.ts:
an error message or the resolved coordinates, never both. -/
structure LocationResult where
  error : Option String
  data : Option Coordinates
deriving DecidableEq, Repr

/-- getBestLocation (utils/geolocation.ts): tries the IP lookup and
swallows any failure into an error field; it never throws. The
parameter is the outcome of the getLocationFromIP call. -/
def getBestLocation (ipResult : Except String Coordinates) : LocationResult :=
  match ipResult with
  | .ok c => { error := none, data := some c }
  | .error m => { error := some m, data := none }

/-- JS truthiness of a nullable string: null and the empty string are
falsy, every other string is truthy. -/
def optStrTruthy : Option String → Bool
  | none => false
  | some s => decide (s ≠ "")

/-- The location column written by saveDataMutation (Scan.tsx):
location.error ? null : location.data. -/
def locationValue (lr : LocationResult) : Option Coordinates :=
  if optStrTruthy lr.error then none else lr.data

/-- scanMutation (Scan.tsx): the label/confidence pairs of the JSON
response body, in Object.entries order. -/
def scanPredictions (resp : List (String × Rat)) : List Prediction :=
  resp.map (fun p => { label := p.1, confidence := p.2 })

/-- The cattle_scans row inserted by saveDataMutation (Scan.tsx):
image URL, prediction list, location-or-null, submitter id; the other
columns take their database defaults. -/
def mkScanRow (imageUrl : String) (preds : List Prediction)
    (loc : LocationResult) (userId : Option String) (newId : String)
    (now : Int) : CattleScan :=
  { id := newId
    image_url := imageUrl
    location := locationValue loc
    ai_prediction := preds
    scanned_by_user_id := userId
    is_helpful := none
    flagged_for_inspection := none
    inspection_reason := none
    created_at := now }

/-- A pipeline stage of the submission pipeline. -/
inductive Stage
  | inference
  | upload
  | persistence
deriving DecidableEq, Repr

/-- Terminal result of one submission attempt. -/
inductive PipelineResult
  | complete (scanId : String)
  | failed (stage : Stage) (msg : String)
deriving DecidableEq, Repr

/-- Outcomes of the external calls made during one submission, plus the
values the environment supplies (clock, file name, generated row id). -/
structure SubmissionEnv where
  inference : Except String (List (String × Rat))
  uploadErr : Option String
  ipLocation : Except String Coordinates
  insertErr : Option String
  now : Int
  fileName : String
  newScanId : String

/-- The chained submission pipeline of Scan.tsx: scanMutation, then
uploadMutation (triggered by scanMutation.onSuccess), then
saveDataMutation (triggered by uploadMutation.onSuccess).  An inference
failure stops before any side effect; an upload failure stops before
any storage write; a persistence failure leaves the uploaded object in
storage (accepted orphan). -/
def runSubmission (env : SubmissionEnv) (userId : Option String)
    (w : WorldState) : WorldState × PipelineResult :=
  match env.inference with
  | .error m => (w, .failed .inference m)
  | .ok resp =>
    match env.uploadErr with
    | some m => (w, .failed .upload m)
    | none =>
      let path := uploadFileName env.now env.fileName
      let w1 : WorldState := { w with storage := w.storage ++ [path] }
      let row := mkScanRow (publicUrl path) (scanPredictions resp)
        (getBestLocation env.ipLocation) userId env.newScanId env.now
      match env.insertErr with
      | some m => (w1, .failed .persistence m)
      | none =>
        ({ w1 with
            db := { w1.db with
                      cattle_scans := w1.db.cattle_scans ++ [row] } },
         .complete env.newScanId)

namespace ScanPage

/-- reviewMutation (Scan.tsx): update cattle_scans set is_helpful. -/
def reviewMutation (isHelpful : Bool) (s : CattleScan) : CattleScan :=
  { s with is_helpful := some isHelpful }

/-- flagMutation (Scan.tsx): update cattle_scans set
flagged_for_inspection = true, inspection_reason = reason. -/
def flagMutation (reason : String) (s : CattleScan) : CattleScan :=
  { s with flagged_for_inspection := some true
           inspection_reason := some reason }

end ScanPage

namespace ScanPageV1

/-- flagMutation of the earlier Scan page variant: it takes an explicit
flag boolean and writes flagged_for_inspection = flag,
inspection_reason = flag ? reason : null, scanned_by_user_id. -/
def flagMutation (flag : Bool) (reason : String) (userId : String)
    (s : CattleScan) : CattleScan :=
  { s with flagged_for_inspection := some flag
           inspection_reason := if flag then some reason else none
           scanned_by_user_id := some userId }

end ScanPageV1

/-- The effect of an update ... eq("id", id) statement on the
cattle_scans table: apply the field update to every row whose id
matches, leave every other row unchanged. -/
def updateScans (id : String) (f : CattleScan → CattleScan)
    (rows : List CattleScan) : List CattleScan :=
  rows.map (fun s => if s.id = id then f s else s)

/-- reviewMutation applied at database level. -/
def applyReviewMutation (id : String) (isHelpful : Bool)
    (db : Database) : Database :=
  { db with cattle_scans :=
      updateScans id (ScanPage.reviewMutation isHelpful) db.cattle_scans }

/-- Flag-state filter of the unconfirmed view (Admin.tsx ConfirmScans). -/
inductive FlagFilter
  | all
  | flagged
  | notFlagged
deriving DecidableEq, Repr

/-- Helpfulness filter of the unconfirmed view (Admin.tsx ConfirmScans). -/
inductive HelpfulFilter
  | all
  | helpful
  | notHelpful
deriving DecidableEq, Repr

/-- Sort order selector of the views (latest or oldest). -/
inductive ScanSort
  | latest
  | oldest
deriving DecidableEq, Repr

/-- JS truthiness of a nullable boolean column. -/
def optBoolTruthy : Option Bool → Bool
  | none => false
  | some b => b

/-- Admin.tsx: filterFlagged test on one scan. -/
def matchesFlagFilter (f : FlagFilter) (s : CattleScan) : Bool :=
  match f with
  | .all => true
  | .flagged => optBoolTruthy s.flagged_for_inspection
  | .notFlagged => !(optBoolTruthy s.flagged_for_inspection)

/-- Admin.tsx: filterHelpful test on one scan (strict comparisons with
true and false, as in the source). -/
def matchesHelpfulFilter (f : HelpfulFilter) (s : CattleScan) : Bool :=
  match f with
  | .all => true
  | .helpful => decide (s.is_helpful = some true)
  | .notHelpful => decide (s.is_helpful = some false)

/-- Admin.tsx: searchUserId test on one scan; the empty string means
no filter. -/
def matchesUserFilter (searchUserId : String) (s : CattleScan) : Bool :=
  decide (searchUserId = "") ||
    decide (s.scanned_by_user_id = some searchUserId)

/-- Server-side order("created_at", ascending false) used by
fetchScansPaginated. -/
def serverOrderDesc (rows : List CattleScan) : List CattleScan :=
  List.insertionSort (fun a b => b.created_at ≤ a.created_at) rows

/-- fetchScansPaginated (Admin.tsx): order all cattle_scans rows by
created_at descending, return the 1-indexed page slice given by
range(from, to), together with the exact count of all rows. -/
def fetchScansPaginated (db : Database) (page pageSize : Nat) :
    List CattleScan × Nat :=
  (((serverOrderDesc db.cattle_scans).drop ((page - 1) * pageSize)).take
      pageSize,
   db.cattle_scans.length)

/-- Client-side sort of the current page (Admin.tsx ConfirmScans). -/
def clientSort (so : ScanSort) (rows : List CattleScan) :
    List CattleScan :=
  match so with
  | .latest => List.insertionSort (fun a b => b.created_at ≤ a.created_at) rows
  | .oldest => List.insertionSort (fun a b => a.created_at ≤ b.created_at) rows

/-- Client-side filters of the unconfirmed list (Admin.tsx
ConfirmScans), applied in source order to the current page only. -/
def applyScanFilters (uid : String) (ff : FlagFilter) (hf : HelpfulFilter)
    (rows : List CattleScan) : List CattleScan :=
  ((rows.filter (matchesUserFilter uid)).filter
      (matchesFlagFilter ff)).filter (matchesHelpfulFilter hf)

/-- The rows the Unconfirmed Scans panel displays for one page: the
server page slice, client-filtered and client-sorted. -/
def unconfirmedPageRows (db : Database) (page pageSize : Nat)
    (uid : String) (ff : FlagFilter) (hf : HelpfulFilter) (so : ScanSort) :
    List CattleScan :=
  clientSort so (applyScanFilters uid ff hf
    (fetchScansPaginated db page pageSize).1)

/-- confirmMutation (Admin.tsx ConfirmScans): insert one
confirmed_cattle_breeds row referencing the scan. -/
def confirmMutation (scan : CattleScan) (breed : String)
    (confirmerId : String) (newId : String) (now : Int)
    (db : Database) : Database :=
  { db with confirmed_cattle_breeds := db.confirmed_cattle_breeds ++
      [{ id := newId
         scan_id := some scan.id
         image_url := scan.image_url
         breed := breed
         confirmed_by_user_id := some confirmerId
         created_at := now }] }

/-- Page count computed by the caller: ceil(total / pageSize). -/
def numPages (total pageSize : Nat) : Nat :=
  (total + pageSize - 1) / pageSize

/-- Concatenation of every page of the unconfirmed view at a fixed
filter/sort configuration (pages 1 through ceil(total / pageSize)). -/
def allUnconfirmedRows (db : Database) (pageSize : Nat) (uid : String)
    (ff : FlagFilter) (hf : HelpfulFilter) (so : ScanSort) :
    List CattleScan :=
  ((List.range (numPages (fetchScansPaginated db 1 pageSize).2 pageSize)).map
      (fun i => unconfirmedPageRows db (i + 1) pageSize uid ff hf so)).flatten

/-- One file of a bulk-confirm batch, together with the outcome its
upload would have. -/
structure ImageFile where
  name : String
  uploadErr : Option String
deriving DecidableEq, Repr

/-- The upload loop of UploadConfirmedImage (Admin.tsx): upload each
file in order, accumulating public URLs; the first failing upload
throws, leaving the objects already uploaded in storage. -/
def uploadLoop (now : Int) (storage : List String) (acc : List String) :
    List ImageFile → List String × Except String (List String)
  | [] => (storage, .ok acc)
  | img :: rest =>
    match img.uploadErr with
    | some m => (storage, .error m)
    | none =>
      let path := uploadFileName now img.name
      uploadLoop now (storage ++ [path]) (acc ++ [publicUrl path]) rest

/-- UploadConfirmedImage (Admin.tsx): reject an empty selection, then
upload every image, then insert one confirmed_cattle_breeds row per
uploaded URL in a single batch; any upload failure throws before the
insert statement is reached. -/
def uploadConfirmedImages (breed : String) (images : List ImageFile)
    (userId : String) (insertErr : Option String) (newIds : List String)
    (now : Int) (w : WorldState) : WorldState × Except String Unit :=
  if images.length = 0 then
    (w, .error "Please upload at least one image")
  else
    match uploadLoop now w.storage [] images with
    | (st, .error m) => ({ w with storage := st }, .error m)
    | (st, .ok urls) =>
      match insertErr with
      | some m => ({ w with storage := st }, .error m)
      | none =>
        let rows := (newIds.zip urls).map (fun p =>
          ({ id := p.1
             scan_id := none
             image_url := p.2
             breed := breed
             confirmed_by_user_id := some userId
             created_at := now } : ConfirmedCattleBreed))
        ({ storage := st
           db := { w.db with confirmed_cattle_breeds :=
                     w.db.confirmed_cattle_breeds ++ rows } },
         .ok ())

/-- topPrediction (Scan.tsx): first element of a copy of the prediction
list sorted descending by confidence. -/
def topPrediction (preds : List Prediction) : Option Prediction :=
  (List.insertionSort (fun a b => b.confidence ≤ a.confidence) preds).head?

/-- Modelled from the spec: the ordering the spec requires of the
persisted prediction list — descending by confidence, ties broken by
ascending label.  Used only to compare the spec's words with the
source behaviour. -/
def specPredOrder (a b : Prediction) : Prop :=
  b.confidence < a.confidence ∨
    (a.confidence = b.confidence ∧ a.label < b.label)

instance (a b : Prediction) : Decidable (specPredOrder a b) :=
  inferInstanceAs (Decidable (b.confidence < a.confidence ∨
    (a.confidence = b.confidence ∧ a.label < b.label)))

/-- Modelled from the spec: a prediction list sorted as the spec
demands, each adjacent pair related by specPredOrder. -/
def specSortedPredictions : List Prediction → Prop
  | [] => True
  | [_] => True
  | a :: b :: rest => specPredOrder a b ∧ specSortedPredictions (b :: rest)

instance specSortedPredictionsDecidable :
    (l : List Prediction) → Decidable (specSortedPredictions l)
  | [] => inferInstanceAs (Decidable True)
  | [_] => inferInstanceAs (Decidable True)
  | _ :: b :: rest =>
    have : Decidable (specSortedPredictions (b :: rest)) :=
      specSortedPredictionsDecidable (b :: rest)
    inferInstanceAs (Decidable (_ ∧ _))

instance : IsTotal Prediction (fun a b => b.confidence ≤ a.confidence) :=
  ⟨fun a b => (le_total a.confidence b.confidence).symm⟩

instance : IsTrans Prediction (fun a b => b.confidence ≤ a.confidence) :=
  ⟨fun _ _ _ hab hbc => le_trans hbc hab⟩

/-- Empty world state used by the concrete checks. -/
def w0 : WorldState :=
  { storage := [], db := { cattle_scans := [], confirmed_cattle_breeds := [] } }

/-- A concrete scan row used by the concrete checks. -/
def scanS1 : CattleScan :=
  { id := "s1"
    image_url := "u1"
    location := none
    ai_prediction := [{ label := "Gir", confidence := 90 }]
    scanned_by_user_id := none
    is_helpful := none
    flagged_for_inspection := none
    inspection_reason := none
    created_at := 5 }

/-- A database holding only scanS1, not yet confirmed. -/
def dbS1 : Database :=
  { cattle_scans := [scanS1], confirmed_cattle_breeds := [] }

/-- A concrete scan row flagged for inspection. -/
def scanFlaggedEx : CattleScan :=
  { scanS1 with id := "s2", flagged_for_inspection := some true }

/-- A database holding only the flagged scan. -/
def dbFlaggedEx : Database :=
  { cattle_scans := [scanFlaggedEx], confirmed_cattle_breeds := [] }

/-- A possible inference response body, its entries in an order that is
not descending by confidence (Object.entries preserves the JSON text
order of the keys). -/
def respUnsorted : List (String × Rat) :=
  [("Sahiwal", 10), ("Gir", 82)]

/-- A submission environment whose inference succeeds with
respUnsorted and whose remaining stages succeed. -/
def envUnsorted : SubmissionEnv :=
  { inference := .ok respUnsorted
    uploadErr := none
    ipLocation := .error "ip lookup failed"
    insertErr := none
    now := 0
    fileName := "a.jpg"
    newScanId := "s9" }

/-- A bulk-confirm batch of three images whose second upload fails. -/
def batchSecondFails : List ImageFile :=
  [{ name := "a.jpg", uploadErr := none },
   { name := "b.jpg", uploadErr := some "quota exceeded" },
   { name := "c.jpg", uploadErr := none }]

/-- C4: applying the flag operation with flag=false writes
flagged_for_inspection = false and a null inspection_reason, clearing
any stored reason text. -/
theorem flag_false_clears_reason (s : CattleScan) (reason userId : String) :
    (ScanPageV1.flagMutation false reason userId s).flagged_for_inspection
        = some false ∧
      (ScanPageV1.flagMutation false reason userId s).inspection_reason
        = none :=
  ⟨rfl, rfl⟩

/-- C8: the helpfulness update is idempotent — applying it twice with
the same value equals applying it once — and it commutes with the flag
update on the same scan. -/
theorem review_idempotent_and_commutes_with_flag (s : CattleScan)
    (v : Bool) (reason : String) :
    ScanPage.reviewMutation v (ScanPage.reviewMutation v s)
        = ScanPage.reviewMutation v s ∧
      ScanPage.flagMutation reason (ScanPage.reviewMutation v s)
        = ScanPage.reviewMutation v (ScanPage.flagMutation reason s) :=
  ⟨rfl, rfl⟩

/-- C10: a bulk confirm with an empty image list fails with the
"Please upload at least one image" error and returns the world state
untouched — no upload and no insert happens. -/
theorem bulk_confirm_empty_rejected (breed userId : String)
    (insertErr : Option String) (newIds : List String) (now : Int)
    (w : WorldState) :
    uploadConfirmedImages breed [] userId insertErr newIds now w
      = (w, Except.error "Please upload at least one image") :=
  rfl

/-- C6: when the inference stage fails, the pipeline stops with the
inference-stage failure and the world state — storage and database —
is exactly the input state: no side effect occurred. -/
theorem inference_failure_no_side_effects (env : SubmissionEnv)
    (userId : Option String) (w : WorldState) (m : String)
    (h : env.inference = Except.error m) :
    runSubmission env userId w
      = (w, PipelineResult.failed Stage.inference m) := by
  unfold runSubmission
  rw [h]

/-- Witness for C6 at a concrete environment. -/
theorem inference_failure_no_side_effects_witness :
    runSubmission { envUnsorted with inference := Except.error "http 500" }
        none w0
      = (w0, PipelineResult.failed Stage.inference "http 500") :=
  inference_failure_no_side_effects _ none w0 "http 500" rfl

/-- C7: when the location resolver fails but every other stage
succeeds, the pipeline still completes; the persisted scan row is
appended with a null location, and no failure is raised. -/
theorem location_failure_still_completes (env : SubmissionEnv)
    (userId : Option String) (w : WorldState)
    (resp : List (String × Rat)) (m : String)
    (hinf : env.inference = Except.ok resp)
    (hup : env.uploadErr = none)
    (hloc : env.ipLocation = Except.error m)
    (hins : env.insertErr = none) :
    (runSubmission env userId w).2 = PipelineResult.complete env.newScanId ∧
      (runSubmission env userId w).1.db.cattle_scans
        = w.db.cattle_scans ++
            [mkScanRow (publicUrl (uploadFileName env.now env.fileName))
              (scanPredictions resp) (getBestLocation env.ipLocation)
              userId env.newScanId env.now] ∧
      (mkScanRow (publicUrl (uploadFileName env.now env.fileName))
          (scanPredictions resp) (getBestLocation env.ipLocation)
          userId env.newScanId env.now).location = none := by
  unfold runSubmission
  rw [hinf, hup, hins]
  refine ⟨rfl, rfl, ?_⟩
  rw [hloc]
  unfold mkScanRow locationValue getBestLocation
  simp

/-- Witness for C7 at a concrete environment. -/
theorem location_failure_still_completes_witness :
    (runSubmission envUnsorted none w0).2
        = PipelineResult.complete envUnsorted.newScanId ∧
      (runSubmission envUnsorted none w0).1.db.cattle_scans
        = w0.db.cattle_scans ++
            [mkScanRow
              (publicUrl (uploadFileName envUnsorted.now envUnsorted.fileName))
              (scanPredictions respUnsorted)
              (getBestLocation envUnsorted.ipLocation)
              none envUnsorted.newScanId envUnsorted.now] ∧
      (mkScanRow
          (publicUrl (uploadFileName envUnsorted.now envUnsorted.fileName))
          (scanPredictions respUnsorted)
          (getBestLocation envUnsorted.ipLocation)
          none envUnsorted.newScanId envUnsorted.now).location = none :=
  location_failure_still_completes envUnsorted none w0 respUnsorted
    "ip lookup failed" rfl rfl rfl rfl

/-- C2, counterexample: a successful submission whose inference response
lists the low-confidence entry first persists a prediction list that is
not sorted descending by confidence — saveDataMutation stores the
response entries in Object.entries order without sorting them. -/
theorem persisted_predictions_not_sorted_cex :
    ((runSubmission envUnsorted none w0).1.db.cattle_scans.map
        CattleScan.ai_prediction) = [scanPredictions respUnsorted] ∧
      ¬ specSortedPredictions (scanPredictions respUnsorted) := by
  constructor
  · rfl
  · decide

/-- C2, amended: the persisted prediction list keeps the response's
entry order (its labels are exactly the response keys in order), has no
two entries for the same label because a JSON object has distinct keys,
and the headline topPrediction is an entry of the list of maximal
confidence; the list itself is persisted unsorted. -/
theorem persisted_predictions_amended (resp : List (String × Rat))
    (hkeys : (resp.map Prod.fst).Nodup) :
    (scanPredictions resp).map Prediction.label = resp.map Prod.fst ∧
      ((scanPredictions resp).map Prediction.label).Nodup ∧
      (∀ imageUrl loc userId newId now,
        (mkScanRow imageUrl (scanPredictions resp) loc userId newId
            now).ai_prediction = scanPredictions resp) ∧
      ∀ t, topPrediction (scanPredictions resp) = some t →
        t ∈ scanPredictions resp ∧
          ∀ q ∈ scanPredictions resp, q.confidence ≤ t.confidence := by
  have hlab : (scanPredictions resp).map Prediction.label
      = resp.map Prod.fst := by
    unfold scanPredictions
    rw [List.map_map]
    rfl
  refine ⟨hlab, by rw [hlab]; exact hkeys, fun _ _ _ _ _ => rfl, ?_⟩
  intro t ht
  unfold topPrediction at ht
  cases hs : List.insertionSort
      (fun a b => b.confidence ≤ a.confidence) (scanPredictions resp) with
  | nil => rw [hs] at ht; exact absurd ht (by simp)
  | cons a rest =>
    rw [hs] at ht
    have hta : a = t := by simpa using ht
    rw [← hta]
    have hsorted := List.sorted_insertionSort
      (fun a b => b.confidence ≤ a.confidence) (scanPredictions resp)
    rw [hs] at hsorted
    have hrest := (List.sorted_cons.mp hsorted).1
    constructor
    · have : a ∈ List.insertionSort
          (fun a b => b.confidence ≤ a.confidence) (scanPredictions resp) := by
        rw [hs]; exact List.mem_cons_self _ _
      simpa using this
    · intro q hq
      have hq2 : q ∈ List.insertionSort
          (fun a b => b.confidence ≤ a.confidence) (scanPredictions resp) := by
        simpa using hq
      rw [hs] at hq2
      rcases List.mem_cons.mp hq2 with hqa | hqr
      · exact hqa ▸ le_refl _
      · exact hrest q hqr

/-- Witness for the amended C2 at a concrete response. -/
theorem persisted_predictions_amended_witness :
    ((scanPredictions respUnsorted).map Prediction.label
        = respUnsorted.map Prod.fst ∧
      ((scanPredictions respUnsorted).map Prediction.label).Nodup ∧
      (∀ imageUrl loc userId newId now,
        (mkScanRow imageUrl (scanPredictions respUnsorted) loc userId newId
            now).ai_prediction = scanPredictions respUnsorted) ∧
      ∀ t, topPrediction (scanPredictions respUnsorted) = some t →
        t ∈ scanPredictions respUnsorted ∧
          ∀ q ∈ scanPredictions respUnsorted,
            q.confidence ≤ t.confidence) :=
  persisted_predictions_amended respUnsorted (by decide)

/-- Every image of the batch with a failing upload makes the upload
loop stop with that error, whatever storage and URLs were accumulated. -/
theorem uploadLoop_error_of_exists (now : Int) :
    ∀ (images : List ImageFile) (storage acc : List String),
      (∃ img ∈ images, img.uploadErr.isSome) →
      ∃ m st, uploadLoop now storage acc images = (st, Except.error m) := by
  intro images
  induction images with
  | nil =>
    intro storage acc h
    simp at h
  | cons img rest ih =>
    intro storage acc h
    cases himg : img.uploadErr with
    | some m =>
      exact ⟨m, storage, by simp [uploadLoop, himg]⟩
    | none =>
      obtain ⟨i, hi, hsome⟩ := h
      rcases List.mem_cons.mp hi with hhead | hmem
      · rw [hhead, himg] at hsome
        simp at hsome
      · obtain ⟨m, st, hloop⟩ := ih
          (storage ++ [uploadFileName now img.name])
          (acc ++ [publicUrl (uploadFileName now img.name)])
          ⟨i, hmem, hsome⟩
        exact ⟨m, st, by simp [uploadLoop, himg, hloop]⟩

/-- C5: if any upload of a bulk-confirm batch fails, the whole batch
operation fails with an error and zero confirmed_cattle_breeds rows are
inserted — the database is unchanged, so no insert was attempted. -/
theorem bulk_confirm_fail_fast (breed : String) (images : List ImageFile)
    (userId : String) (insertErr : Option String) (newIds : List String)
    (now : Int) (w : WorldState)
    (h : ∃ img ∈ images, img.uploadErr.isSome) :
    (∃ m, (uploadConfirmedImages breed images userId insertErr newIds
        now w).2 = Except.error m) ∧
      (uploadConfirmedImages breed images userId insertErr newIds
        now w).1.db = w.db := by
  obtain ⟨m, st, hloop⟩ := uploadLoop_error_of_exists now images w.storage [] h
  have hne : ¬ images.length = 0 := by
    obtain ⟨i, hi, _⟩ := h
    cases images with
    | nil => simp at hi
    | cons a t => simp
  unfold uploadConfirmedImages
  rw [if_neg hne, hloop]
  exact ⟨⟨m, rfl⟩, rfl⟩

/-- Witness for C5: the spec's three-image batch whose second upload
fails inserts zero rows. -/
theorem bulk_confirm_fail_fast_witness :
    (∃ m, (uploadConfirmedImages "Gir" batchSecondFails "mod1" none
        ["c1", "c2", "c3"] 0 w0).2 = Except.error m) ∧
      (uploadConfirmedImages "Gir" batchSecondFails "mod1" none
        ["c1", "c2", "c3"] 0 w0).1.db = w0.db :=
  bulk_confirm_fail_fast "Gir" batchSecondFails "mod1" none
    ["c1", "c2", "c3"] 0 w0 (by decide)

/-- C9: a helpfulness update leaves the confirmed table untouched and,
row by row, changes nothing of any scan but the is_helpful column of
the rows whose id matches: every other column of every row is
unchanged, non-matching rows are unchanged entirely, and matching rows
become exactly the reviewMutation update of themselves. -/
theorem review_update_frame (db : Database) (id : String) (v : Bool) :
    (applyReviewMutation id v db).confirmed_cattle_breeds
        = db.confirmed_cattle_breeds ∧
      List.Forall₂ (fun s t =>
          t.id = s.id ∧ t.image_url = s.image_url ∧
          t.ai_prediction = s.ai_prediction ∧ t.location = s.location ∧
          t.scanned_by_user_id = s.scanned_by_user_id ∧
          t.flagged_for_inspection = s.flagged_for_inspection ∧
          t.inspection_reason = s.inspection_reason ∧
          t.created_at = s.created_at ∧
          (s.id ≠ id → t = s) ∧
          (s.id = id → t = ScanPage.reviewMutation v s))
        db.cattle_scans (applyReviewMutation id v db).cattle_scans := by
  refine ⟨rfl, ?_⟩
  show List.Forall₂ _ db.cattle_scans
    (updateScans id (ScanPage.reviewMutation v) db.cattle_scans)
  induction db.cattle_scans with
  | nil => exact List.Forall₂.nil
  | cons s rest ih =>
    unfold updateScans
    rw [List.map_cons]
    refine List.Forall₂.cons ?_ ih
    by_cases h : s.id = id
    · rw [if_pos h]
      exact ⟨rfl, rfl, rfl, rfl, rfl, rfl, rfl, rfl,
        fun hn => absurd h hn, fun _ => rfl⟩
    · rw [if_neg h]
      exact ⟨rfl, rfl, rfl, rfl, rfl, rfl, rfl, rfl,
        fun _ => rfl, fun he => absurd he h⟩

/-- Witness for C9 at a concrete database, id and value. -/
theorem review_update_frame_witness :
    (applyReviewMutation "s1" true dbS1).confirmed_cattle_breeds
        = dbS1.confirmed_cattle_breeds ∧
      List.Forall₂ (fun s t =>
          t.id = s.id ∧ t.image_url = s.image_url ∧
          t.ai_prediction = s.ai_prediction ∧ t.location = s.location ∧
          t.scanned_by_user_id = s.scanned_by_user_id ∧
          t.flagged_for_inspection = s.flagged_for_inspection ∧
          t.inspection_reason = s.inspection_reason ∧
          t.created_at = s.created_at ∧
          (s.id ≠ "s1" → t = s) ∧
          (s.id = "s1" → t = ScanPage.reviewMutation true s))
        dbS1.cattle_scans (applyReviewMutation "s1" true dbS1).cattle_scans :=
  review_update_frame dbS1 "s1" true

/-- C1: after confirming scanS1 — its ConfirmedBreed row with matching
scan_id exists — a reread of the first unconfirmed page still contains
scanS1: fetchScansPaginated never excludes scans that have a matching
confirmed_cattle_breeds row, contradicting its own "fetch unconfirmed
scans" comment and the Unconfirmed Scans panel it feeds. -/
theorem confirmed_scan_still_in_unconfirmed_view :
    ((confirmMutation scanS1 "Gir" "mod1" "c1" 9 dbS1).confirmed_cattle_breeds.map
        ConfirmedCattleBreed.scan_id) = [some scanS1.id] ∧
      scanS1 ∈ unconfirmedPageRows
        (confirmMutation scanS1 "Gir" "mod1" "c1" 9 dbS1) 1 10 ""
        FlagFilter.all HelpfulFilter.all ScanSort.latest :=
  ⟨rfl, by decide⟩

/-- Splitting a list into consecutive chunks of a fixed size and
concatenating the first k of them recovers the list once k chunks
cover its length. -/
theorem flatten_chunks {α : Type} (size : Nat) :
    ∀ (k : Nat) (l : List α), l.length ≤ k * size →
      ((List.range k).map (fun i => (l.drop (i * size)).take size)).flatten
        = l := by
  intro k
  induction k with
  | zero =>
    intro l hl
    have h0 : l = [] :=
      List.length_eq_zero.mp (Nat.le_zero.mp (by simpa using hl))
    rw [h0]
    rfl
  | succ k ih =>
    intro l hl
    rw [List.range_succ_eq_map, List.map_cons, List.flatten_cons,
      List.map_map]
    have h1 : ((fun i => (l.drop (i * size)).take size) ∘ fun i => i + 1)
        = fun i => ((l.drop size).drop (i * size)).take size := by
      funext i
      show (l.drop ((i + 1) * size)).take size
          = ((l.drop size).drop (i * size)).take size
      rw [Nat.succ_mul, Nat.add_comm, ← List.drop_drop]
    have hlen : (l.drop size).length ≤ k * size := by
      rw [List.length_drop]
      rw [Nat.succ_mul] at hl
      generalize k * size = K at hl ⊢
      omega
    rw [h1, ih (l.drop size) hlen]
    show (l.drop (0 * size)).take size ++ l.drop size = l
    rw [Nat.zero_mul, List.drop_zero]
    exact List.take_append_drop size l

/-- The total row count always fits in ceil(total / pageSize) pages. -/
theorem le_numPages_mul (n size : Nat) (hs : 0 < size) :
    n ≤ numPages n size * size := by
  have key : (n + size - 1) / size * size + (n + size - 1) % size
      = n + size - 1 := Nat.div_add_mod' _ _
  have hm : (n + size - 1) % size < size := Nat.mod_lt _ hs
  unfold numPages
  generalize hA : (n + size - 1) / size * size = A at key ⊢
  generalize (n + size - 1) % size = R at key hm
  omega

/-- The client-side page sort only permutes the page rows. -/
theorem clientSort_perm (so : ScanSort) (rows : List CattleScan) :
    List.Perm (clientSort so rows) rows := by
  cases so
  · exact List.perm_insertionSort _ _
  · exact List.perm_insertionSort _ _

/-- With no user-id search, flag filter all and helpfulness filter all,
the client-side filters keep every row. -/
theorem applyScanFilters_allpass (rows : List CattleScan) :
    applyScanFilters "" FlagFilter.all HelpfulFilter.all rows = rows := by
  unfold applyScanFilters
  have h1 : rows.filter (matchesUserFilter "") = rows := by
    apply List.filter_eq_self.mpr
    intro s _
    simp [matchesUserFilter]
  rw [h1]
  have h2 : rows.filter (matchesFlagFilter FlagFilter.all) = rows := by
    apply List.filter_eq_self.mpr
    intro s _
    rfl
  rw [h2]
  apply List.filter_eq_self.mpr
  intro s _
  rfl

/-- Mapping two pointwise-permuting page functions over the same index
list gives Forall₂-related page lists. -/
theorem forall2_perm_map {α : Type} (r : List Nat) (f g : Nat → List α)
    (h : ∀ i ∈ r, List.Perm (f i) (g i)) :
    List.Forall₂ List.Perm (r.map f) (r.map g) := by
  induction r with
  | nil => exact List.Forall₂.nil
  | cons a t ih =>
    exact List.Forall₂.cons (h a (List.mem_cons_self a t))
      (ih fun i hi => h i (List.mem_cons_of_mem a hi))

/-- Concatenating pointwise-permuting page lists gives permuted
concatenations. -/
theorem flatten_perm_of_forall2 {α : Type} {l₁ l₂ : List (List α)}
    (h : List.Forall₂ List.Perm l₁ l₂) :
    List.Perm l₁.flatten l₂.flatten := by
  induction h with
  | nil => exact List.Perm.refl _
  | cons hab _ ih => simpa using List.Perm.append hab ih

/-- C3, amended: at the all-pass filter configuration (empty user-id
search, flag filter all, helpfulness filter all) and either sort order,
concatenating pages 1 through ceil(total / pageSize) of the unconfirmed
view is a permutation of the whole cattle_scans table — exactly the
reported total many rows, no gaps, and no duplicates provided the table
itself has none. -/
theorem unconfirmed_pagination_allpass (db : Database) (pageSize : Nat)
    (so : ScanSort) (hps : 0 < pageSize) (hnd : db.cattle_scans.Nodup) :
    List.Perm
        (allUnconfirmedRows db pageSize "" FlagFilter.all HelpfulFilter.all so)
        db.cattle_scans ∧
      (allUnconfirmedRows db pageSize "" FlagFilter.all
          HelpfulFilter.all so).length
        = (fetchScansPaginated db 1 pageSize).2 ∧
      (allUnconfirmedRows db pageSize "" FlagFilter.all
        HelpfulFilter.all so).Nodup := by
  have hperm : List.Perm
      (allUnconfirmedRows db pageSize "" FlagFilter.all HelpfulFilter.all so)
      db.cattle_scans := by
    unfold allUnconfirmedRows
    have hstep : List.Forall₂ List.Perm
        ((List.range (numPages (fetchScansPaginated db 1 pageSize).2
            pageSize)).map
          (fun i => unconfirmedPageRows db (i + 1) pageSize ""
            FlagFilter.all HelpfulFilter.all so))
        ((List.range (numPages (fetchScansPaginated db 1 pageSize).2
            pageSize)).map
          (fun i => ((serverOrderDesc db.cattle_scans).drop
            (i * pageSize)).take pageSize)) := by
      apply forall2_perm_map
      intro i _
      simp only [unconfirmedPageRows, fetchScansPaginated]
      rw [applyScanFilters_allpass]
      have hidx : (i + 1 - 1) * pageSize = i * pageSize := by
        rw [Nat.add_sub_cancel]
      rw [hidx]
      exact clientSort_perm so _
    have hflat := flatten_perm_of_forall2 hstep
    have hlen : (serverOrderDesc db.cattle_scans).length ≤
        numPages (fetchScansPaginated db 1 pageSize).2 pageSize * pageSize := by
      unfold serverOrderDesc fetchScansPaginated
      rw [List.length_insertionSort]
      exact le_numPages_mul _ _ hps
    rw [flatten_chunks pageSize _ _ hlen] at hflat
    exact hflat.trans (List.perm_insertionSort _ _)
  refine ⟨hperm, ?_, (hperm.nodup_iff).mpr hnd⟩
  rw [hperm.length_eq]
  rfl

/-- Witness for the amended C3 at a concrete database. -/
theorem unconfirmed_pagination_allpass_witness :
    List.Perm
        (allUnconfirmedRows dbS1 10 "" FlagFilter.all HelpfulFilter.all
          ScanSort.latest)
        dbS1.cattle_scans ∧
      (allUnconfirmedRows dbS1 10 "" FlagFilter.all HelpfulFilter.all
          ScanSort.latest).length
        = (fetchScansPaginated dbS1 1 10).2 ∧
      (allUnconfirmedRows dbS1 10 "" FlagFilter.all HelpfulFilter.all
        ScanSort.latest).Nodup :=
  unconfirmed_pagination_allpass dbS1 10 ScanSort.latest (by decide)
    (by decide)

/-- C3, counterexample: with the not-flagged filter active on a table
holding one flagged scan, the concatenation of all pages of the
unconfirmed view is empty while the engine reports total = 1 — the
filters run client-side on the fetched page, but the reported count
ignores them. -/
theorem pagination_total_mismatch_cex :
    (allUnconfirmedRows dbFlaggedEx 10 "" FlagFilter.notFlagged
        HelpfulFilter.all ScanSort.latest).length
      ≠ (fetchScansPaginated dbFlaggedEx 1 10).2 := by
  decide

end CattleScans
